import Mathlib

/-!
Verification of the Adapter & Metric-Evaluation subsystem of the
claude-orchestrator repository.  Python functions are shallowly embedded as
total Lean functions; Python exceptions are embedded with `Except`/`Option`;
`file.read_text()` failure is embedded by an `Option String` content argument;
`json.loads` is embedded by an `Option Json` argument (`none` models a
`json.JSONDecodeError`, `some j` models a successful decode of the raw text,
with JSON numbers restricted to integers, which covers every input used in the
claims).  All definitions follow the Python source under
orchestrator/adapters/ and orchestrator/init.py except where a doc comment
says `Modelled from the spec:` (code imported by the repository but absent
from the snapshot).
-/

/-- Python whitespace for str.strip and the regex class \s (ASCII part):
space, tab, newline, carriage return, vertical tab, form feed. -/
def pyIsSpace (c : Char) : Bool :=
  c == ' ' || c == '\t' || c == '\n' || c == '\r' || c == '\x0b' || c == '\x0c'

/-- Python substring test `sub in s` on character lists. -/
def containsSub : List Char → List Char → Bool
  | sub, [] => sub.isEmpty
  | sub, s@(_ :: t) => sub.isPrefixOf s || containsSub sub t

/-- Python `str.lower()` (ASCII model, enough for language names). -/
def pyLower (s : String) : String := String.mk (s.data.map Char.toLower)

/-- Python `str.strip()`: drop leading and trailing whitespace. -/
def pyStrip (l : List Char) : List Char :=
  ((l.dropWhile pyIsSpace).reverse.dropWhile pyIsSpace).reverse

/-- Python `output.split('\n')` : always at least one piece, empty pieces kept. -/
def splitNl : List Char → List (List Char)
  | [] => [[]]
  | c :: t =>
    if c == '\n' then [] :: splitNl t
    else
      match splitNl t with
      | [] => [[c]]
      | h :: r => (c :: h) :: r

/-- The lines of a raw output string, as in `output.split('\n')`. -/
def pyLines (output : String) : List (List Char) := splitNl output.data

/-- Python `int(...)` on a nonempty string of decimal digits. -/
def digitsToNat (ds : List Char) : Nat :=
  ds.foldl (fun n c => n * 10 + (c.toNat - '0'.toNat)) 0

/-!  ## Adapter registry — orchestrator/adapters/__init__.py  -/

/-- The four concrete adapter classes the registry can return. -/
inductive AdapterClass where
  | pythonAdapter
  | typeScriptAdapter
  | goAdapter
  | rustAdapter
deriving DecidableEq

/-- The ADAPTERS dict of adapters/__init__.py, in insertion order. -/
def ADAPTERS : List (String × AdapterClass) :=
  [("python", .pythonAdapter),
   ("typescript", .typeScriptAdapter),
   ("javascript", .typeScriptAdapter),
   ("go", .goAdapter),
   ("rust", .rustAdapter)]

/-- `ADAPTERS.get(language)` — dict lookup returning None on a miss. -/
def adaptersGet (l : String) : Option AdapterClass := ADAPTERS.lookup l

/-- get_language_adapter of adapters/__init__.py: lower-case the name, try the
ADAPTERS dict, then the substring fallback chain, defaulting to the Python
adapter.  Total by construction, exactly as the Python code never raises. -/
def get_language_adapter (language : String) : AdapterClass :=
  let l := pyLower language
  match adaptersGet l with
  | some adapter_class => adapter_class
  | none =>
    if containsSub "python".data l.data then .pythonAdapter
    else if containsSub "typescript".data l.data || containsSub "javascript".data l.data
         || containsSub "node".data l.data || containsSub "react".data l.data then
      .typeScriptAdapter
    else if containsSub "go".data l.data then .goAdapter
    else if containsSub "rust".data l.data then .rustAdapter
    else .pythonAdapter

/-- Modelled from the spec: the `language` property of each adapter class.
`PythonAdapter.language = "python"` is from python_adapter.py in the source;
typescript_adapter.py, go_adapter.py and rust_adapter.py are imported by the
registry but absent from the repository snapshot, and per the spec (sections 3
and 8) each adapter's `language` identifier is the language it handles. -/
def AdapterClass.language : AdapterClass → String
  | .pythonAdapter => "python"
  | .typeScriptAdapter => "typescript"
  | .goAdapter => "go"
  | .rustAdapter => "rust"

/-- The known language set of the registry, written from the words of claim C1
and spec section 4.1. -/
def isKnownLanguage (l : String) : Bool :=
  l == "python" || l == "typescript" || l == "javascript" || l == "go" || l == "rust"

/-- Written from the words of claim C1 and spec section 4.1: first an exact
case-insensitive match against the known language set (returning the adapter
registered for that language), then, in order, the substring rules python /
typescript-javascript-node-react / go / rust, and finally the Python adapter
as the default fallback. -/
def registryResolveSpec (name : String) : AdapterClass :=
  let l := pyLower name
  if isKnownLanguage l then
    if l == "python" then .pythonAdapter
    else if l == "typescript" || l == "javascript" then .typeScriptAdapter
    else if l == "go" then .goAdapter
    else .rustAdapter
  else
    if containsSub "python".data l.data then .pythonAdapter
    else if containsSub "typescript".data l.data || containsSub "javascript".data l.data
         || containsSub "node".data l.data || containsSub "react".data l.data then
      .typeScriptAdapter
    else if containsSub "go".data l.data then .goAdapter
    else if containsSub "rust".data l.data then .rustAdapter
    else .pythonAdapter

/-!  ## Generic parsers and heuristics — orchestrator/adapters/base.py  -/

/-- Result dict of BaseAdapter.parse_test_output. -/
structure BaseTestResult where
  passed : Nat
  failed : Nat
  total : Nat
  success : Bool
deriving DecidableEq

/-- BaseAdapter.parse_test_output: count lines containing PASSED / PASS / a
check mark, and lines containing FAILED / FAIL / a cross mark. -/
def base_parse_test_output (output : String) : BaseTestResult :=
  let lines := pyLines output
  let passed := lines.countP fun line =>
    containsSub "PASSED".data line || containsSub "PASS".data line || containsSub "✓".data line
  let failed := lines.countP fun line =>
    containsSub "FAILED".data line || containsSub "FAIL".data line || containsSub "✗".data line
  ⟨passed, failed, passed + failed, failed == 0⟩

/-- Result dict of BaseAdapter.parse_lint_output. -/
structure BaseLintResult where
  errors : Nat
  warnings : Nat
  total_issues : Nat
  success : Bool
deriving DecidableEq

/-- BaseAdapter.parse_lint_output: count lines whose lower-cased text contains
"error", and lines whose lower-cased text contains "warning". -/
def base_parse_lint_output (output : String) : BaseLintResult :=
  let lines := pyLines output
  let errors := lines.countP fun line =>
    containsSub "error".data (line.map Char.toLower)
  let warnings := lines.countP fun line =>
    containsSub "warning".data (line.map Char.toLower)
  ⟨errors, warnings, errors + warnings, errors == 0⟩

/-- Result dict of BaseAdapter.parse_security_output. -/
structure BaseSecurityResult where
  high : Nat
  medium : Nat
  low : Nat
  total_issues : Nat
  success : Bool
deriving DecidableEq

/-- Line predicate of BaseAdapter.parse_security_output: the lower-cased line
contains the given severity word together with "severity" or "risk". -/
def severityLine (word : List Char) (line : List Char) : Bool :=
  let lower := line.map Char.toLower
  containsSub word lower && (containsSub "severity".data lower || containsSub "risk".data lower)

/-- BaseAdapter.parse_security_output (the text fallback). -/
def base_parse_security_output (output : String) : BaseSecurityResult :=
  let lines := pyLines output
  let high := lines.countP (severityLine "high".data)
  let medium := lines.countP (severityLine "medium".data)
  let low := lines.countP (severityLine "low".data)
  ⟨high, medium, low, high + medium + low, high == 0⟩

/-- Control-flow keyword set of BaseAdapter.estimate_complexity. -/
def complexity_keywords : List String :=
  ["if", "elif", "else", "for", "while", "try", "except", "switch", "case"]

/-- BaseAdapter.estimate_complexity: on a readable file, base score 1 plus one
for every (line, keyword) pair such that the keyword occurs in the line; an
unreadable file (the `except Exception` branch) yields 0.  The `Option String`
argument embeds `file_path.read_text()`: `none` models a read failure. -/
def base_estimate_complexity : Option String → Nat
  | none => 0
  | some content =>
    (pyLines content).foldl
      (fun complexity line =>
        complexity_keywords.foldl
          (fun c kw => if containsSub kw.data line then c + 1 else c)
          complexity)
      1

/-- BaseAdapter.get_function_count: count lines containing one of the generic
function markers; 0 when the file cannot be read. -/
def base_get_function_count : Option String → Nat
  | none => 0
  | some content =>
    (pyLines content).countP fun line =>
      containsSub "def ".data line || containsSub "function ".data line
        || containsSub "func ".data line

/-!  ## Python adapter test parser — orchestrator/adapters/python_adapter.py  -/

/-- Per-line PASSED condition of PythonAdapter.parse_test_output, with the
Python operator precedence `A or (B and C)`. -/
def linePassedB (line : List Char) : Bool :=
  containsSub " PASSED".data line
    || (containsSub "::".data line && containsSub "PASSED".data line)

/-- Per-line FAILED condition of PythonAdapter.parse_test_output. -/
def lineFailedB (line : List Char) : Bool :=
  containsSub " FAILED".data line
    || (containsSub "::".data line && containsSub "FAILED".data line)

/-- Per-line SKIPPED condition of PythonAdapter.parse_test_output. -/
def lineSkippedB (line : List Char) : Bool :=
  containsSub " SKIPPED".data line
    || (containsSub "::".data line && containsSub "SKIPPED".data line)

/-- Leftmost match of the regex `(\d+)%` in a line: the first maximal run of
digits that is immediately followed by a percent sign (a shorter, backtracked
run would be followed by a digit, which is not a percent sign, so maximal-run
semantics coincides with Python's re.search). -/
def searchIntPercent : List Char → Option Nat
  | [] => none
  | cs@(_ :: rest) =>
    let ds := cs.takeWhile Char.isDigit
    let r := cs.dropWhile Char.isDigit
    if ds.isEmpty then searchIntPercent rest
    else
      match r with
      | '%' :: _ => some (digitsToNat ds)
      | _ => searchIntPercent rest

/-- Running state of the per-line loop of PythonAdapter.parse_test_output. -/
structure TestScan where
  passed : Nat
  failed : Nat
  skipped : Nat
  coverage : Option Nat
deriving DecidableEq

/-- Coverage extraction of one line: lines containing TOTAL and a percent sign
are searched for `(\d+)%`. -/
def lineCoverageExtract (line : List Char) : Option Nat :=
  if containsSub "TOTAL".data line && containsSub "%".data line then
    searchIntPercent line
  else none

/-- One iteration of the per-line loop of PythonAdapter.parse_test_output:
the PASSED/FAILED/SKIPPED elif chain, then the independent coverage update. -/
def scanTestLine (st : TestScan) (line : List Char) : TestScan :=
  let st1 :=
    if linePassedB line then ⟨st.passed + 1, st.failed, st.skipped, st.coverage⟩
    else if lineFailedB line then ⟨st.passed, st.failed + 1, st.skipped, st.coverage⟩
    else if lineSkippedB line then ⟨st.passed, st.failed, st.skipped + 1, st.coverage⟩
    else st
  match lineCoverageExtract line with
  | some v => ⟨st1.passed, st1.failed, st1.skipped, some v⟩
  | none => st1

/-- The lazy part `.*?(\d+)\s+passed` of the summary regex, tried at one
position: a maximal digit run followed by whitespace and the word passed
(backtracking inside the run cannot help, since every character of the run is
a digit and hence not whitespace). -/
def tryPassedAt (cs : List Char) : Option (Nat × List Char) :=
  let ds := cs.takeWhile Char.isDigit
  let r1 := cs.dropWhile Char.isDigit
  if ds.isEmpty then none
  else
    let ws := r1.takeWhile pyIsSpace
    let r2 := r1.dropWhile pyIsSpace
    if ws.isEmpty then none
    else if "passed".data.isPrefixOf r2 then some (digitsToNat ds, r2.drop 6)
    else none

/-- Lazy scan for `(\d+)\s+passed`: the dot of `.*?` does not cross a newline,
so the scan stops at the end of the line when no earlier position matches. -/
def scanForPassed : List Char → Option (Nat × List Char)
  | [] => none
  | cs@(c :: rest) =>
    match tryPassedAt cs with
    | some x => some x
    | none => if c == '\n' then none else scanForPassed rest

/-- The tail `in\s+([\d.]+)s` of the summary regex, tried at one position. -/
def tryInAt (cs : List Char) : Bool :=
  if "in".data.isPrefixOf cs then
    let r1 := cs.drop 2
    let ws := r1.takeWhile pyIsSpace
    let r2 := r1.dropWhile pyIsSpace
    if ws.isEmpty then false
    else
      let run := r2.takeWhile fun c => c.isDigit || c == '.'
      let r3 := r2.dropWhile fun c => c.isDigit || c == '.'
      !run.isEmpty &&
        match r3 with
        | 's' :: _ => true
        | _ => false
  else false

/-- Lazy scan for `in\s+([\d.]+)s`, again not crossing a newline. -/
def scanForIn : List Char → Bool
  | [] => false
  | cs@(c :: rest) => tryInAt cs || (c != '\n' && scanForIn rest)

/-- Attempt of the full summary regex
`=+\s*(\d+)\s+failed.*?(\d+)\s+passed.*?in\s+([\d.]+)s` at one position,
returning the captured (failed, passed) counts.  The leading classes `=+`,
`\s*`, `(\d+)`, `\s+` act on pairwise disjoint character classes, so greedy
maximal-run matching coincides with Python's backtracking semantics. -/
def matchSummaryAt (cs : List Char) : Option (Nat × Nat) :=
  let eqs := cs.takeWhile fun c => c == '='
  let r1 := cs.dropWhile fun c => c == '='
  if eqs.isEmpty then none
  else
    let r2 := r1.dropWhile pyIsSpace
    let ds := r2.takeWhile Char.isDigit
    let r3 := r2.dropWhile Char.isDigit
    if ds.isEmpty then none
    else
      let ws := r3.takeWhile pyIsSpace
      let r4 := r3.dropWhile pyIsSpace
      if ws.isEmpty then none
      else if "failed".data.isPrefixOf r4 then
        match scanForPassed (r4.drop 6) with
        | some (p, r5) => if scanForIn r5 then some (digitsToNat ds, p) else none
        | none => none
      else none

/-- re.search of the summary pattern: leftmost match over all start
positions. -/
def searchSummary : List Char → Option (Nat × Nat)
  | [] => none
  | cs@(_ :: rest) =>
    match matchSummaryAt cs with
    | some x => some x
    | none => searchSummary rest

/-- The summary override of PythonAdapter.parse_test_output: when the summary
pattern matches, its captured counts replace the per-line failed/passed
tallies. -/
def summaryOverride (out : List Char) (failed passed : Nat) : Nat × Nat :=
  match searchSummary out with
  | some (f2, p2) => (f2, p2)
  | none => (failed, passed)

/-- Result dict of PythonAdapter.parse_test_output. -/
structure PyTestResult where
  passed : Nat
  failed : Nat
  skipped : Nat
  total : Nat
  coverage : Option Nat
  success : Bool
  status : String
deriving DecidableEq

/-- PythonAdapter.parse_test_output: per-line scan, then the summary override
of failed and passed, then the derived total/success/status fields. -/
def python_parse_test_output (output : String) : PyTestResult :=
  let st := (pyLines output).foldl scanTestLine ⟨0, 0, 0, none⟩
  let fp := summaryOverride output.data st.failed st.passed
  ⟨fp.2, fp.1, st.skipped, fp.2 + fp.1 + st.skipped, st.coverage,
    fp.1 == 0, if fp.1 == 0 then "PASS" else "FAIL"⟩

/-!  ## Python adapter lint parser — orchestrator/adapters/python_adapter.py  -/

/-- Leftmost match of the regex `[A-Z]\d{3}` in a line: an upper-case letter
followed by three digits. -/
def findCode : List Char → Option (List Char)
  | l :: d1 :: d2 :: d3 :: rest =>
    if l.isUpper && d1.isDigit && d2.isDigit && d3.isDigit then some [l, d1, d2, d3]
    else findCode (d1 :: d2 :: d3 :: rest)
  | _ => none

/-- `issues_by_type[code] = issues_by_type.get(code, 0) + 1` on a Python dict
in insertion order. -/
def bumpCode : List (List Char × Nat) → List Char → List (List Char × Nat)
  | [], code => [(code, 1)]
  | (k, v) :: t, code =>
    if k == code then (k, v + 1) :: t else (k, v) :: bumpCode t code

/-- Running state of the per-line loop of PythonAdapter.parse_lint_output. -/
structure LintScan where
  errors : Nat
  warnings : Nat
  issues_by_type : List (List Char × Nat)

/-- One iteration of the loop of PythonAdapter.parse_lint_output: a line with
a colon and a ruff-style code counts as an error when the code starts with E
or F, otherwise as a warning. -/
def scanLintLine (st : LintScan) (line : List Char) : LintScan :=
  if containsSub ":".data line then
    match findCode line with
    | some code =>
      if code.head? == some 'E' || code.head? == some 'F' then
        ⟨st.errors + 1, st.warnings, bumpCode st.issues_by_type code⟩
      else
        ⟨st.errors, st.warnings + 1, bumpCode st.issues_by_type code⟩
    | none => st
  else st

/-- Result dict of PythonAdapter.parse_lint_output. -/
structure PyLintResult where
  errors : Nat
  warnings : Nat
  total_issues : Nat
  issues_by_type : List (List Char × Nat)
  success : Bool
  status : String

/-- PythonAdapter.parse_lint_output. -/
def python_parse_lint_output (output : String) : PyLintResult :=
  let st := (pyLines output).foldl scanLintLine ⟨0, 0, []⟩
  ⟨st.errors, st.warnings, st.errors + st.warnings, st.issues_by_type,
    st.errors == 0, if st.errors == 0 then "PASS" else "ISSUES"⟩

/-!  ## Python adapter security parser — python_adapter.py

`json.loads` is embedded by an `Option Json` argument: `none` models a
`json.JSONDecodeError` (taking the text-fallback branch), `some j` models a
successful decode of the raw output, with JSON numbers restricted to the
integers (enough for bandit severity totals and for every input appearing in
the claims).  Python exceptions that the source does **not** catch
(AttributeError from `.get` on a non-dict, TypeError from iterating a
non-iterable, from an unhashable dict key or from `+` on incompatible values)
are embedded in the `Except String` result. -/

/-- JSON values as decoded by `json.loads` (numbers restricted to integers). -/
inductive Json where
  | null
  | bool (b : Bool)
  | num (n : Int)
  | str (s : String)
  | arr (elems : List Json)
  | obj (fields : List (String × Json))

/-- First-match lookup in a decoded JSON object (keys are unique in a decoded
Python dict). -/
def lookupField : List (String × Json) → String → Option Json
  | [], _ => none
  | (k, v) :: t, key => if k == key then some v else lookupField t key

/-- Python `value.get(key, default)`: dict lookup with a default, raising
AttributeError when the value is not a dict. -/
def Json.pyGet : Json → String → Json → Except String Json
  | .obj fields, key, dflt => .ok ((lookupField fields key).getD dflt)
  | _, _, _ => .error "AttributeError"

/-- Python `for ... in value`: the element sequence of an iterable, raising
TypeError otherwise (a string yields its characters, a dict its keys). -/
def Json.pyIter : Json → Except String (List Json)
  | .arr elems => .ok elems
  | .str s => .ok (s.data.map fun c => Json.str (String.mk [c]))
  | .obj fields => .ok (fields.map fun kv => Json.str kv.1)
  | _ => .error "TypeError"

/-- Hashable Python values (usable as dict keys): anything but list/dict. -/
def Json.hashable : Json → Bool
  | .arr _ => false
  | .obj _ => false
  | _ => true

/-- Python `==` on scalar JSON values (True equals 1, False equals 0). -/
def Json.pyEq : Json → Json → Bool
  | .null, .null => true
  | .bool a, .bool b => a == b
  | .num a, .num b => a == b
  | .bool a, .num b => (if a then (1 : Int) else 0) == b
  | .num a, .bool b => a == (if b then (1 : Int) else 0)
  | .str a, .str b => a == b
  | _, _ => false

/-- Python `value == 0`, as used for the success flag. -/
def Json.pyEqZero (j : Json) : Bool := j.pyEq (Json.num 0)

/-- Python `a + b` on decoded JSON values: numbers (with booleans as 0/1) add,
strings and lists concatenate, anything else raises TypeError. -/
def Json.pyAdd : Json → Json → Except String Json
  | .num a, .num b => .ok (.num (a + b))
  | .num a, .bool b => .ok (.num (a + if b then 1 else 0))
  | .bool a, .num b => .ok (.num ((if a then 1 else 0) + b))
  | .bool a, .bool b => .ok (.num ((if a then 1 else 0) + if b then (1 : Int) else 0))
  | .str a, .str b => .ok (.str (a ++ b))
  | .arr a, .arr b => .ok (.arr (a ++ b))
  | _, _ => .error "TypeError"

/-- `issues_by_type[test_id] = issues_by_type.get(test_id, 0) + 1` on a dict
keyed by decoded JSON values, with Python equality of keys. -/
def bumpIssue : List (Json × Nat) → Json → List (Json × Nat)
  | [], tid => [(tid, 1)]
  | (k, v) :: t, tid =>
    if k.pyEq tid then (k, v + 1) :: t else (k, v) :: bumpIssue t tid

/-- The `for result in results` loop of PythonAdapter.parse_security_output:
each element's test_id (default "unknown") is tallied; a non-dict element or
an unhashable test_id raises. -/
def banditIssues (results : Json) : Except String (List (Json × Nat)) :=
  match results.pyIter with
  | .error e => .error e
  | .ok elems =>
    elems.foldlM
      (fun acc elem =>
        match elem.pyGet "test_id" (Json.str "unknown") with
        | .error e => .error e
        | .ok tid =>
          if tid.hashable then .ok (bumpIssue acc tid) else .error "TypeError")
      []

/-- Result dict of the JSON branch of PythonAdapter.parse_security_output. -/
structure JsonSecurityResult where
  high : Json
  medium : Json
  low : Json
  total_issues : Json
  issues_by_type : List (Json × Nat)
  success : Bool
  status : String

/-- The two result shapes of PythonAdapter.parse_security_output: the JSON
branch dict, or the generic dict returned by the text fallback. -/
inductive PySecurityOut where
  | json (r : JsonSecurityResult)
  | fallback (r : BaseSecurityResult)

/-- The success entry of either result shape. -/
def PySecurityOut.success : PySecurityOut → Bool
  | .json r => r.success
  | .fallback r => r.success

/-- PythonAdapter.parse_security_output.  `decoded` embeds `json.loads`; on
decode failure the generic text parser is used, otherwise severity totals and
the per-rule tally are extracted, propagating the exceptions the source does
not catch. -/
def python_parse_security_output (decoded : Option Json) (output : String) :
    Except String PySecurityOut :=
  match decoded with
  | none => .ok (.fallback (base_parse_security_output output))
  | some bandit_data =>
    match bandit_data.pyGet "metrics" (Json.obj []) with
    | .error e => .error e
    | .ok metrics =>
      match metrics.pyGet "_totals" (Json.obj []) with
      | .error e => .error e
      | .ok totals =>
        match totals.pyGet "SEVERITY.HIGH" (Json.num 0) with
        | .error e => .error e
        | .ok high =>
          match totals.pyGet "SEVERITY.MEDIUM" (Json.num 0) with
          | .error e => .error e
          | .ok medium =>
            match totals.pyGet "SEVERITY.LOW" (Json.num 0) with
            | .error e => .error e
            | .ok low =>
              match bandit_data.pyGet "results" (Json.arr []) with
              | .error e => .error e
              | .ok results =>
                match banditIssues results with
                | .error e => .error e
                | .ok issues =>
                  match high.pyAdd medium with
                  | .error e => .error e
                  | .ok hm =>
                    match hm.pyAdd low with
                    | .error e => .error e
                    | .ok total =>
                      .ok (.json ⟨high, medium, low, total, issues,
                        high.pyEqZero,
                        if high.pyEqZero then "CLEAR" else "ISSUES"⟩)

/-!  ## Python adapter static heuristics — python_adapter.py  -/

/-- Python-specific complexity keyword set of
PythonAdapter.estimate_complexity. -/
def python_complexity_keywords : List String :=
  ["if ", "elif ", "else:", "for ", "while ", "try:", "except ",
   "with ", "and ", "or ", "lambda", "?"]

/-- PythonAdapter.estimate_complexity: base score 1 plus one per
(stripped line, keyword) pair such that the keyword occurs in the stripped
line; 0 when the file cannot be read. -/
def python_estimate_complexity : Option String → Nat
  | none => 0
  | some content =>
    (pyLines content).foldl
      (fun complexity line =>
        let stripped := pyStrip line
        python_complexity_keywords.foldl
          (fun c kw => if containsSub kw.data stripped then c + 1 else c)
          complexity)
      1

/-- PythonAdapter.get_function_count: count lines whose stripped text starts
with `def ` or `async def `; 0 when the file cannot be read. -/
def python_get_function_count : Option String → Nat
  | none => 0
  | some content =>
    (pyLines content).countP fun line =>
      "def ".data.isPrefixOf (pyStrip line) || "async def ".data.isPrefixOf (pyStrip line)

/-!  ## Project type classifier — orchestrator/init.py  -/

/-- The names of the PROJECT_TEMPLATES catalog. -/
inductive TemplateName where
  | python_ml
  | python_api
  | typescript_node
  | react_frontend
  | go_service
  | rust_project
deriving DecidableEq

/-- One entry of the PROJECT_TEMPLATES catalog: file indicators, manifest
keywords and the configured language. -/
structure Template where
  indicators : List String
  keywords : List String
  language : String

/-- The PROJECT_TEMPLATES catalog of orchestrator/init.py (the fields the
classifier and the round-trip use). -/
def PROJECT_TEMPLATES : TemplateName → Template
  | .python_ml =>
    ⟨["requirements.txt", "setup.py", "pyproject.toml"],
     ["tensorflow", "torch", "sklearn", "numpy", "pandas", "jupyter"], "python"⟩
  | .python_api =>
    ⟨["requirements.txt", "app.py", "main.py", "manage.py"],
     ["fastapi", "django", "flask", "uvicorn", "gunicorn"], "python"⟩
  | .typescript_node =>
    ⟨["package.json", "tsconfig.json"],
     ["typescript", "node", "express", "nestjs"], "typescript"⟩
  | .react_frontend =>
    ⟨["package.json", "src/App.tsx", "src/App.jsx", "public/index.html"],
     ["react", "next", "vite", "webpack"], "typescript"⟩
  | .go_service =>
    ⟨["go.mod", "main.go"],
     ["gin", "echo", "chi", "gorilla", "grpc"], "go"⟩
  | .rust_project =>
    ⟨["Cargo.toml", "src/main.rs", "src/lib.rs"],
     ["tokio", "serde", "clap", "actix", "warp"], "rust"⟩

/-- Dict iteration order of PROJECT_TEMPLATES. -/
def templateOrder : List TemplateName :=
  [.python_ml, .python_api, .typescript_node, .react_frontend, .go_service, .rust_project]

/-- A file of a project snapshot: its path below the project root as a list
of components (the last component is the file name) and its text content. -/
structure PFile where
  path : List String
  content : String

/-- A project directory snapshot, as walked by os.walk. -/
abbrev Project := List PFile

/-- Directory-name fragments skipped by the walk of detect_project_type. -/
def ignorePatterns : List String := [".git", "node_modules", "__pycache__", ".venv"]

/-- The `continue` conditions of the os.walk loop: a directory is collected
when no component of its path below the root contains an ignore fragment and
it is at most 3 levels below the root.  (None of the ignore fragments
contains a path separator, so the substring test on the joined directory
string in the source equals a per-component substring test, for a project
root whose own path is free of the fragments.) -/
def dirKept (dir : List String) : Bool :=
  (!dir.any fun comp => ignorePatterns.any fun ig => containsSub ig.data comp.data)
    && dir.length ≤ 3

/-- files_in_project: the set of base names of the files in the collected
directories — os.walk yields base names only, so path-qualified indicators
can never appear in this set. -/
def filesInProject (proj : Project) : List String :=
  (proj.filter fun f => dirKept f.path.dropLast).filterMap fun f => f.path.getLast?

/-- The manifest files read for keywords by detect_project_type. -/
def manifestFiles : List String :=
  ["package.json", "requirements.txt", "Cargo.toml", "go.mod", "pyproject.toml"]

/-- The content of the file with the given name at the project root, if it
exists (`(project_path / file_name).exists()` followed by read_text). -/
def fileAtRoot (proj : Project) (name : String) : Option String :=
  (proj.find? fun f => f.path == [name]).map fun f => f.content

/-- Membership of a template in keywords_found: some manifest file at the
root exists and its lower-cased content contains one of the template's
keywords. -/
def keywordFound (proj : Project) (t : TemplateName) : Bool :=
  manifestFiles.any fun mf =>
    match fileAtRoot proj mf with
    | none => false
    | some content =>
      (PROJECT_TEMPLATES t).keywords.any fun kw =>
        containsSub kw.data (pyLower content).data

/-- The score of one template: 3 per file indicator present in
files_in_project, plus 5 when the template is in keywords_found. -/
def templateScore (proj : Project) (t : TemplateName) : Nat :=
  3 * ((PROJECT_TEMPLATES t).indicators.countP fun ind => (filesInProject proj).contains ind)
    + if keywordFound proj t then 5 else 0

/-- Python `max(scores, key=scores.get)`: the first key attaining the maximal
value, in dict order. -/
def argmaxFirst : TemplateName × Nat → List (TemplateName × Nat) → TemplateName × Nat
  | best, [] => best
  | best, c :: t => argmaxFirst (if best.2 < c.2 then c else best) t

/-- detect_project_type of orchestrator/init.py: score every template and
return the best match, defaulting to python_api when every score is zero. -/
def detect_project_type (proj : Project) : TemplateName :=
  let scores := templateOrder.map fun t => (t, templateScore proj t)
  match scores with
  | [] => .python_api
  | h :: rest =>
    let best := argmaxFirst h rest
    if 0 < best.2 then best.1 else .python_api

/-!  ## Metric gate evaluator  -/

/-- A metric policy as it appears in the configuration documents (target,
optional cap, absolute flag, unit). -/
structure MetricPolicy where
  targetValue : ℚ
  capValue : Option ℚ
  absolute : Bool
  unit : String

/-- Verdict of the metric gate evaluator. -/
structure GateVerdict where
  pass : Bool
  delta : ℚ

/-- Modelled from the spec: the Metric Gate Evaluator (spec section 4.6) lives
in code that is not part of the repository snapshot (only the policy data and
the CLI that displays policies are).  Per the spec: when `absolute` is true,
pass iff the measured value meets or exceeds the target; when `absolute` is
false, the measured value is a signed percentage delta which must be at or
beyond the target in the favorable direction and must not exceed the cap in
the unfavorable direction (the favorable direction is taken from the sign of
the target, matching the spec's examples). -/
def evaluateMetric (measuredValue : ℚ) (policy : MetricPolicy) : GateVerdict :=
  if policy.absolute then
    ⟨decide (policy.targetValue ≤ measuredValue), measuredValue - policy.targetValue⟩
  else
    let favorableDown := decide (policy.targetValue ≤ 0)
    let meetsTarget :=
      if favorableDown then decide (measuredValue ≤ policy.targetValue)
      else decide (policy.targetValue ≤ measuredValue)
    let withinCap :=
      match policy.capValue with
      | none => true
      | some cap =>
        if favorableDown then decide (measuredValue ≤ cap)
        else decide (cap ≤ measuredValue)
    ⟨meetsTarget && withinCap, measuredValue⟩

/-!  ## Spec-side comparison definitions and concrete inputs  -/

/-- Number of occurrences of a pattern in a character list: the number of
start positions (overlap allowed) at which the pattern matches.  Written from
the words of claim C8, which counts the estimate per occurrence of a
keyword. -/
def countOcc (sub : List Char) : List Char → Nat
  | [] => if sub.isEmpty then 1 else 0
  | s@(_ :: t) => (if sub.isPrefixOf s then 1 else 0) + countOcc sub t

/-- The complexity estimate claim C8 describes for the generic adapter:
base 1 plus one per occurrence of a control-flow keyword per line. -/
def specOccurrenceComplexity (content : String) : Nat :=
  1 + ((pyLines content).map fun line =>
        (complexity_keywords.map fun kw => countOcc kw.data line).sum).sum

/-- The skipped count of the per-line scan of PythonAdapter.parse_test_output,
as a direct tally: lines hitting the SKIPPED branch of the elif chain. -/
def skippedTally (output : String) : Nat :=
  (pyLines output).countP fun l => !linePassedB l && !lineFailedB l && lineSkippedB l

/-- The coverage of the per-line scan of PythonAdapter.parse_test_output, as a
direct description: the extract of the last line that yields one. -/
def coverageTally (output : String) : Option Nat :=
  (pyLines output).reverse.findSome? lineCoverageExtract

/-- A project directory holding exactly Cargo.toml (empty) and src/main.rs
(empty) — the directory of claim C3. -/
def rustProj : Project := [⟨["Cargo.toml"], ""⟩, ⟨["src", "main.rs"], ""⟩]

/-- The same directory with a root manifest containing the keyword tokio. -/
def rustProjTokio : Project := [⟨["Cargo.toml"], "tokio"⟩, ⟨["src", "main.rs"], ""⟩]

/-- Valid JSON whose metrics._totals maps SEVERITY.HIGH to 1 but whose
results entry is the number 0 — iterated by the per-rule loop, which raises
TypeError in Python. -/
def jC4 : Json :=
  Json.obj [("metrics", Json.obj [("_totals", Json.obj [("SEVERITY.HIGH", Json.num 1)])]),
            ("results", Json.num 0)]

/-- Bandit-shaped totals with zero high and nonzero medium/low findings. -/
def tC4w : Json :=
  Json.obj [("SEVERITY.HIGH", Json.num 0), ("SEVERITY.MEDIUM", Json.num 7),
            ("SEVERITY.LOW", Json.num 3)]

/-- A metrics object wrapping `tC4w`. -/
def mC4w : Json := Json.obj [("_totals", tC4w)]

/-- A well-shaped bandit report with zero high findings. -/
def jC4w : Json :=
  Json.obj [("metrics", mC4w),
            ("results", Json.arr [Json.obj [("test_id", Json.str "B101")]])]

/-- Bandit-shaped totals used as the witness input of claim C5. -/
def tC5w : Json :=
  Json.obj [("SEVERITY.HIGH", Json.num 2), ("SEVERITY.LOW", Json.num 1)]

/-- A well-shaped bandit report (results absent) with two high findings. -/
def jC5w : Json := Json.obj [("metrics", Json.obj [("_totals", tC5w)])]

/-!  ## Helper lemmas  -/

/-- The summary pattern needs a leading equals sign: at any other start
position the attempt fails at once. -/
theorem matchSummaryAt_cons_ne (c : Char) (rest : List Char) (h : c ≠ '=') :
    matchSummaryAt (c :: rest) = none := by
  have hb : (c == '=') = false := by simp [h]
  unfold matchSummaryAt
  simp [List.takeWhile_cons, hb]

/-- Leftmost search of the summary pattern skips any prefix free of equals
signs. -/
theorem searchSummary_append (pre s : List Char) (h : ∀ c ∈ pre, c ≠ '=') :
    searchSummary (pre ++ s) = searchSummary s := by
  induction pre with
  | nil => rfl
  | cons c t ih =>
    have hc : c ≠ '=' := h c (List.mem_cons_self c t)
    have ht : ∀ x ∈ t, x ≠ '=' := fun x hx => h x (List.mem_cons_of_mem c hx)
    rw [List.cons_append]
    simp only [searchSummary, matchSummaryAt_cons_ne c (t ++ s) hc]
    exact ih ht

/-- The per-line test scan bumps skipped exactly on lines hitting the SKIPPED
branch of the elif chain. -/
theorem scanTestLine_skipped (st : TestScan) (line : List Char) :
    (scanTestLine st line).skipped
      = st.skipped + (if !linePassedB line && !lineFailedB line && lineSkippedB line
          then 1 else 0) := by
  unfold scanTestLine
  cases hcov : lineCoverageExtract line <;>
    by_cases hp : linePassedB line <;>
      by_cases hf : lineFailedB line <;>
        by_cases hs : lineSkippedB line <;>
          simp [hcov, hp, hf, hs]

/-- The per-line test scan sets coverage from the line extract when there is
one and keeps it otherwise. -/
theorem scanTestLine_coverage (st : TestScan) (line : List Char) :
    (scanTestLine st line).coverage
      = match lineCoverageExtract line with
        | some v => some v
        | none => st.coverage := by
  unfold scanTestLine
  cases hcov : lineCoverageExtract line <;>
    by_cases hp : linePassedB line <;>
      by_cases hf : lineFailedB line <;>
        by_cases hs : lineSkippedB line <;>
          simp [hcov, hp, hf, hs]

/-- Folding the test scan accumulates the skipped tally. -/
theorem foldl_scan_skipped (lines : List (List Char)) :
    ∀ st : TestScan,
      (lines.foldl scanTestLine st).skipped
        = st.skipped
            + lines.countP (fun l => !linePassedB l && !lineFailedB l && lineSkippedB l) := by
  induction lines with
  | nil => intro st; simp
  | cons l t ih =>
    intro st
    rw [List.foldl_cons, ih, scanTestLine_skipped, List.countP_cons]
    cases hcond : !linePassedB l && !lineFailedB l && lineSkippedB l
    · simp only [hcond, Bool.false_eq_true, if_false]
      omega
    · simp only [hcond, if_true]
      omega

/-- findSome? distributes over append. -/
theorem findSome_append {α β : Type} (l1 l2 : List α) (f : α → Option β) :
    (l1 ++ l2).findSome? f
      = match l1.findSome? f with
        | some v => some v
        | none => l2.findSome? f := by
  induction l1 with
  | nil => simp [List.findSome?]
  | cons a t ih =>
    rw [List.cons_append]
    simp only [List.findSome?]
    cases f a <;> simp [ih]

/-- Folding the test scan computes the coverage of the last line yielding an
extract. -/
theorem foldl_scan_coverage (lines : List (List Char)) :
    ∀ st : TestScan,
      (lines.foldl scanTestLine st).coverage
        = match lines.reverse.findSome? lineCoverageExtract with
          | some v => some v
          | none => st.coverage := by
  induction lines with
  | nil => intro st; simp [List.findSome?]
  | cons l t ih =>
    intro st
    rw [List.foldl_cons, ih, List.reverse_cons, findSome_append]
    cases hts : t.reverse.findSome? lineCoverageExtract <;>
      cases hl : lineCoverageExtract l <;>
        simp [List.findSome?, hl, scanTestLine_coverage]

/-- A keyword fold adds the count of satisfied keywords. -/
theorem foldl_if_count (l : List String) (p : String → Bool) :
    ∀ c : Nat, l.foldl (fun c kw => if p kw then c + 1 else c) c = c + l.countP p := by
  induction l with
  | nil => intro c; simp
  | cons a t ih =>
    intro c
    rw [List.foldl_cons, ih, List.countP_cons]
    cases ha : p a
    · simp only [ha, Bool.false_eq_true, if_false]
      omega
    · simp only [ha, if_true]
      omega

/-- A fold adding a per-line amount computes the sum of the amounts. -/
theorem foldl_add_sum (lines : List (List Char)) (g : List Char → Nat) :
    ∀ c : Nat, lines.foldl (fun acc line => acc + g line) c = c + (lines.map g).sum := by
  induction lines with
  | nil => intro c; simp
  | cons l t ih =>
    intro c
    rw [List.foldl_cons, ih, List.map_cons, List.sum_cons]
    omega

/-- Evaluation of the JSON branch of the security parser on a well-shaped
bandit report. -/
theorem security_json_eval (j metrics totals : Json) (hv mv lv : Int)
    (issues : List (Json × Nat)) (out : String)
    (h1 : j.pyGet "metrics" (Json.obj []) = .ok metrics)
    (h2 : metrics.pyGet "_totals" (Json.obj []) = .ok totals)
    (hh : totals.pyGet "SEVERITY.HIGH" (Json.num 0) = .ok (Json.num hv))
    (hm : totals.pyGet "SEVERITY.MEDIUM" (Json.num 0) = .ok (Json.num mv))
    (hl : totals.pyGet "SEVERITY.LOW" (Json.num 0) = .ok (Json.num lv))
    (hres : ∀ r, j.pyGet "results" (Json.arr []) = .ok r → banditIssues r = .ok issues) :
    python_parse_security_output (some j) out
      = .ok (.json ⟨Json.num hv, Json.num mv, Json.num lv, Json.num (hv + mv + lv), issues,
          hv == 0, if hv == 0 then "CLEAR" else "ISSUES"⟩) := by
  obtain ⟨jf, rfl⟩ : ∃ f, j = Json.obj f := by
    cases j <;> first
      | exact ⟨_, rfl⟩
      | simp [Json.pyGet] at h1
  have hr : (Json.obj jf).pyGet "results" (Json.arr [])
      = .ok ((lookupField jf "results").getD (Json.arr [])) := rfl
  have hres2 := hres _ hr
  simp only [python_parse_security_output, h1, h2, hh, hm, hl, hr, hres2, Json.pyAdd,
    Json.pyEqZero, Json.pyEq]

/-- C1: the adapter registry's resolve operation is total — it is a Lean
function on all of String, mirroring the raise-free Python code — and for
every input it first tries an exact case-insensitive match against the known
language set and on miss applies the substring fallback chain in the stated
order, returning the Python adapter as the default.  Stated as equality with
`registryResolveSpec`, which is written from the claim's own words. -/
theorem C1_registry_resolution :
    ∀ language : String, get_language_adapter language = registryResolveSpec language := by
  intro language
  unfold get_language_adapter registryResolveSpec adaptersGet ADAPTERS isKnownLanguage
  by_cases h1 : pyLower language == "python"
  · simp [List.lookup, h1]
  · by_cases h2 : pyLower language == "typescript"
    · simp [List.lookup, h1, h2]
    · by_cases h3 : pyLower language == "javascript"
      · simp [List.lookup, h1, h2, h3]
      · by_cases h4 : pyLower language == "go"
        · simp [List.lookup, h1, h2, h3, h4]
        · by_cases h5 : pyLower language == "rust"
          · simp [List.lookup, h1, h2, h3, h4, h5]
          · simp [List.lookup, h1, h2, h3, h4, h5]

/-- C2 counterexample: the raw output consisting of exactly the summary line
"2 failed, 5 passed in 1.23s" contains that summary line, yet the parser
reports failed = 0 and passed = 0 — the summary regex requires at least one
leading equals sign, which this input lacks, and no per-line marker fires. -/
theorem C2_counterexample :
    containsSub "2 failed, 5 passed in 1.23s".data "2 failed, 5 passed in 1.23s".data = true ∧
    ¬ ((python_parse_test_output "2 failed, 5 passed in 1.23s").failed = 2 ∧
       (python_parse_test_output "2 failed, 5 passed in 1.23s").passed = 5) := by
  constructor
  · decide
  · decide

/-- C2 (amended): for every raw output that is any equals-sign-free prefix
followed by the fenced pytest summary line "== 2 failed, 5 passed in 1.23s",
the parser returns failed = 2 and passed = 5, the summary counts overriding
whatever the per-line PASSED/FAILED tally of the prefix produced. -/
theorem C2_summary_override (pre : List Char) (h : ∀ c ∈ pre, c ≠ '=') :
    (python_parse_test_output
        (String.mk (pre ++ "== 2 failed, 5 passed in 1.23s".data))).failed = 2 ∧
    (python_parse_test_output
        (String.mk (pre ++ "== 2 failed, 5 passed in 1.23s".data))).passed = 5 := by
  have hs : searchSummary (String.mk (pre ++ "== 2 failed, 5 passed in 1.23s".data)).data
      = some (2, 5) := by
    show searchSummary (pre ++ "== 2 failed, 5 passed in 1.23s".data) = some (2, 5)
    rw [searchSummary_append pre _ h]
    rfl
  unfold python_parse_test_output summaryOverride
  rw [hs]
  exact ⟨rfl, rfl⟩

/-- Witness for C2_summary_override: a prefix with a conflicting per-line
FAILED marker, followed by the fenced summary line. -/
theorem C2_summary_override_witness :
    (python_parse_test_output
        (String.mk ("x FAILED y\n".data ++ "== 2 failed, 5 passed in 1.23s".data))).failed = 2 ∧
    (python_parse_test_output
        (String.mk ("x FAILED y\n".data ++ "== 2 failed, 5 passed in 1.23s".data))).passed = 5 :=
  C2_summary_override "x FAILED y\n".data (by decide)

/-- C3: evaluation of the classifier on the directory of the claim.  The
directory containing Cargo.toml and src/main.rs classifies as the Rust
template, but its score is 3, not 6, and with a manifest containing tokio it
is 8, not 11: the walk collects base names only, so the path-qualified
indicator src/main.rs declared in PROJECT_TEMPLATES can never match. -/
theorem C3_rust_scoring :
    detect_project_type rustProj = TemplateName.rust_project ∧
    templateScore rustProj TemplateName.rust_project = 3 ∧
    detect_project_type rustProjTokio = TemplateName.rust_project ∧
    templateScore rustProjTokio TemplateName.rust_project = 8 := by
  refine ⟨?_, ?_, ?_, ?_⟩ <;> decide

/-- C4 counterexample: a valid JSON input whose metrics._totals maps
SEVERITY.HIGH to 1 on which the parser does not return success = false but
raises TypeError (its results entry is the number 0, and the per-rule loop
iterates it); only json.JSONDecodeError is caught by the source. -/
theorem C4_counterexample :
    lookupField [("SEVERITY.HIGH", Json.num 1)] "SEVERITY.HIGH" = some (Json.num 1) ∧
    python_parse_security_output (some jC4) "" = Except.error "TypeError" :=
  ⟨rfl, rfl⟩

/-- C4 (amended): for valid JSON whose metrics and _totals entries are
objects, whose medium and low totals are integers and whose results entry
processes cleanly, the parser returns success = false when the high total is
1 and success = true when it is 0, regardless of the medium and low counts. -/
theorem C4_severity_flag (j metrics totals : Json) (mv lv : Int)
    (issues : List (Json × Nat)) (out : String)
    (h1 : j.pyGet "metrics" (Json.obj []) = .ok metrics)
    (h2 : metrics.pyGet "_totals" (Json.obj []) = .ok totals)
    (hm : totals.pyGet "SEVERITY.MEDIUM" (Json.num 0) = .ok (Json.num mv))
    (hl : totals.pyGet "SEVERITY.LOW" (Json.num 0) = .ok (Json.num lv))
    (hres : ∀ r, j.pyGet "results" (Json.arr []) = .ok r → banditIssues r = .ok issues) :
    (totals.pyGet "SEVERITY.HIGH" (Json.num 0) = .ok (Json.num 1) →
      ∃ res, python_parse_security_output (some j) out = .ok res ∧ res.success = false) ∧
    (totals.pyGet "SEVERITY.HIGH" (Json.num 0) = .ok (Json.num 0) →
      ∃ res, python_parse_security_output (some j) out = .ok res ∧ res.success = true) := by
  constructor
  · intro hh
    exact ⟨_, security_json_eval j metrics totals 1 mv lv issues out h1 h2 hh hm hl hres, rfl⟩
  · intro hh
    exact ⟨_, security_json_eval j metrics totals 0 mv lv issues out h1 h2 hh hm hl hres, rfl⟩

/-- Witness for C4_severity_flag: a well-shaped bandit report with zero high
and nonzero medium/low findings parses with success = true. -/
theorem C4_severity_flag_witness :
    ∃ res, python_parse_security_output (some jC4w) "" = .ok res ∧ res.success = true :=
  (C4_severity_flag jC4w mC4w tC4w 7 3 [(Json.str "B101", 1)] "" rfl rfl rfl rfl
    (fun r hr => by cases hr; rfl)).2 rfl

/-- C5 counterexample: the input "42" is valid JSON (the number 42), and on it
the Python adapter's security parser raises AttributeError (calling .get on an
int) instead of returning a result — so not every parser is total on every
raw output. -/
theorem C5_counterexample :
    python_parse_security_output (some (Json.num 42)) "42" = Except.error "AttributeError" :=
  rfl

/-- C5 (amended): the test and lint parsers of both adapters and the generic
security parser are total with non-negative counts and a boolean success for
every raw output; the Python adapter's security parser is total whenever JSON
decoding fails (returning the generic parse), and on decoded objects whose
metrics/_totals entries are objects with non-negative integer totals and
whose results entry processes cleanly it returns non-negative counts with
success true iff the high total is zero. -/
theorem C5_parsers_total :
    (∀ out : String,
      0 ≤ ((base_parse_test_output out).passed : Int) ∧
      0 ≤ ((base_parse_test_output out).failed : Int) ∧
      0 ≤ ((python_parse_test_output out).passed : Int) ∧
      0 ≤ ((python_parse_test_output out).failed : Int) ∧
      0 ≤ ((python_parse_test_output out).skipped : Int) ∧
      0 ≤ ((base_parse_lint_output out).errors : Int) ∧
      0 ≤ ((base_parse_lint_output out).warnings : Int) ∧
      0 ≤ ((python_parse_lint_output out).errors : Int) ∧
      0 ≤ ((python_parse_lint_output out).warnings : Int) ∧
      0 ≤ ((base_parse_security_output out).high : Int) ∧
      0 ≤ ((base_parse_security_output out).medium : Int) ∧
      0 ≤ ((base_parse_security_output out).low : Int)) ∧
    (∀ out : String,
      python_parse_security_output none out
        = .ok (.fallback (base_parse_security_output out))) ∧
    (∀ (j metrics totals : Json) (hv mv lv : Int) (issues : List (Json × Nat)) (out : String),
      j.pyGet "metrics" (Json.obj []) = .ok metrics →
      metrics.pyGet "_totals" (Json.obj []) = .ok totals →
      totals.pyGet "SEVERITY.HIGH" (Json.num 0) = .ok (Json.num hv) →
      totals.pyGet "SEVERITY.MEDIUM" (Json.num 0) = .ok (Json.num mv) →
      totals.pyGet "SEVERITY.LOW" (Json.num 0) = .ok (Json.num lv) →
      (∀ r, j.pyGet "results" (Json.arr []) = .ok r → banditIssues r = .ok issues) →
      0 ≤ hv → 0 ≤ mv → 0 ≤ lv →
      ∃ r, python_parse_security_output (some j) out = .ok (.json r) ∧
        r.high = Json.num hv ∧ r.medium = Json.num mv ∧ r.low = Json.num lv ∧
        r.total_issues = Json.num (hv + mv + lv) ∧ 0 ≤ hv + mv + lv ∧
        r.success = (hv == 0)) := by
  refine ⟨?_, ?_, ?_⟩
  · intro out
    refine ⟨?_, ?_, ?_, ?_, ?_, ?_, ?_, ?_, ?_, ?_, ?_, ?_⟩ <;> exact Int.natCast_nonneg _
  · intro out
    rfl
  · intro j metrics totals hv mv lv issues out h1 h2 hh hm hl hres hv0 hm0 hl0
    exact ⟨_, security_json_eval j metrics totals hv mv lv issues out h1 h2 hh hm hl hres,
      rfl, rfl, rfl, rfl, by omega, rfl⟩

/-- Witness for C5_parsers_total: the empty output for the scan parsers, a
non-JSON output for the fallback, and a concrete bandit report with high = 2,
medium absent (defaulting to 0) and low = 1 for the JSON branch. -/
theorem C5_parsers_total_witness :
    (0 ≤ ((base_parse_test_output "").passed : Int)) ∧
    (python_parse_security_output none "not json"
      = .ok (.fallback (base_parse_security_output "not json"))) ∧
    (∃ r, python_parse_security_output (some jC5w) "" = .ok (.json r) ∧
      r.high = Json.num 2 ∧ r.medium = Json.num 0 ∧ r.low = Json.num 1 ∧
      r.total_issues = Json.num (2 + 0 + 1) ∧ 0 ≤ (2 : Int) + 0 + 1 ∧
      r.success = ((2 : Int) == 0)) :=
  ⟨(C5_parsers_total.1 "").1,
   C5_parsers_total.2.1 "not json",
   C5_parsers_total.2.2 jC5w (Json.obj [("_totals", tC5w)]) tC5w 2 0 1 [] "" rfl rfl rfl rfl
     rfl (fun r hr => by cases hr; rfl) (by omega) (by omega) (by omega)⟩

/-- C6: for every metric policy with absolute set to true, the gate passes
exactly when the measured value meets or exceeds the target value.  The
evaluator is modelled from the spec, since the repository snapshot does not
contain its code. -/
theorem C6_absolute_gate (policy : MetricPolicy) (measuredValue : ℚ)
    (h : policy.absolute = true) :
    (evaluateMetric measuredValue policy).pass = decide (policy.targetValue ≤ measuredValue) := by
  simp [evaluateMetric, h]

/-- Witness for C6_absolute_gate: with target 80 and absolute true, a measured
85 passes and a measured 79.9 fails. -/
theorem C6_absolute_gate_witness :
    (evaluateMetric 85 ⟨80, none, true, "%"⟩).pass = true ∧
    (evaluateMetric (799/10) ⟨80, none, true, "%"⟩).pass = false := by
  constructor
  · rw [C6_absolute_gate ⟨80, none, true, "%"⟩ 85 rfl]
    rw [decide_eq_true_eq]
    norm_num
  · rw [C6_absolute_gate ⟨80, none, true, "%"⟩ (799/10) rfl]
    rw [decide_eq_false_iff_not]
    norm_num

/-- C7: classifying any project directory and resolving the resulting
template's declared language through the registry yields an adapter whose
language property equals the template's declared language (the language
properties of the TypeScript, Go and Rust adapters are modelled from the
spec, their files being absent from the snapshot). -/
theorem C7_roundtrip : ∀ proj : Project,
    (get_language_adapter (PROJECT_TEMPLATES (detect_project_type proj)).language).language
      = (PROJECT_TEMPLATES (detect_project_type proj)).language := by
  intro proj
  generalize detect_project_type proj = t
  cases t <;> rfl

/-- C8 counterexample: the one-line file "if a if b" contains two occurrences
of the keyword if, so the per-occurrence estimate of the claim is 3, but the
code increments once per (line, keyword) pair and returns 2. -/
theorem C8_counterexample :
    base_estimate_complexity (some "if a if b") = 2 ∧
    specOccurrenceComplexity "if a if b" = 3 ∧
    ¬ base_estimate_complexity (some "if a if b") = specOccurrenceComplexity "if a if b" := by
  refine ⟨?_, ?_, ?_⟩ <;> decide

/-- C8 (amended): the complexity estimate is 1 plus, per line, the number of
keywords of the fixed set that occur in the line as substrings (counted once
per line and keyword however often they occur; the generic adapter matches
the raw line, the Python adapter its stripped form with its own set). -/
theorem C8_complexity_per_keyword_line : ∀ content : String,
    base_estimate_complexity (some content)
        = 1 + ((pyLines content).map fun line =>
            complexity_keywords.countP fun kw => containsSub kw.data line).sum ∧
    python_estimate_complexity (some content)
        = 1 + ((pyLines content).map fun line =>
            python_complexity_keywords.countP fun kw => containsSub kw.data (pyStrip line)).sum := by
  intro content
  constructor
  · show (pyLines content).foldl _ 1 = _
    simp only [foldl_if_count]
    rw [foldl_add_sum]
  · show (pyLines content).foldl _ 1 = _
    simp only [foldl_if_count]
    rw [foldl_add_sum]

/-- C9: the summary override of the Python test parser replaces only the
passed and failed fields — the skipped count and the coverage value returned
are exactly those of the per-line scan, for every raw output. -/
theorem C9_skipped_coverage_frame : ∀ output : String,
    (python_parse_test_output output).skipped = skippedTally output ∧
    (python_parse_test_output output).coverage = coverageTally output := by
  intro output
  constructor
  · show ((pyLines output).foldl scanTestLine ⟨0, 0, 0, none⟩).skipped = _
    rw [foldl_scan_skipped]
    simp [skippedTally]
  · show ((pyLines output).foldl scanTestLine ⟨0, 0, 0, none⟩).coverage = _
    rw [foldl_scan_coverage]
    unfold coverageTally
    cases (pyLines output).reverse.findSome? lineCoverageExtract <;> rfl

/-- C10: when the file contents cannot be read (the read_text call raises and
the except branch runs), the complexity estimate and the function count of
both the generic and the Python adapter return 0. -/
theorem C10_unreadable_returns_zero :
    base_estimate_complexity none = 0 ∧ base_get_function_count none = 0 ∧
    python_estimate_complexity none = 0 ∧ python_get_function_count none = 0 :=
  ⟨rfl, rfl, rfl, rfl⟩
